import Mathlib

/-!
Verification of the context-maker and probability-map engine of
`openquake/hazardlib/contexts.py`.

Shallow embedding conventions:
* numpy float arrays are modelled as `List ℚ`; the operations used by the
  source (`*`, `+`, `1 - x`, `**`, comparisons, boolean masks) are all
  elementwise, so list maps and zips capture them exactly.
* the NaN sentinel used for `occurrence_rate` (the source discriminates with
  `numpy.isnan`) is modelled as `Option ℚ` with `none` standing for NaN.
* fallible code returns `Except PyError`; `PyError` mirrors the exception
  classes the source can raise (plus `invalidDistanceMetric`, a class named
  only by the specification, needed to state claim C8).
* external collaborators (rupture surfaces, hypocenters, GSIM poes
  evaluation, the temporal occurrence model) are function-valued fields of
  the records, as the source treats them as black boxes.
-/

/-- Kind (class) of a raised exception. -/
inductive EKind where
  | valueError
  | farAwayRupture
  | invalidDistanceMetric
deriving DecidableEq, Repr

/-- Exceptions raised by the embedded code.  `valueError` and
`farAwayRupture` are the classes raised in `contexts.py`;
`invalidDistanceMetric` is the error class named by the specification
(no code in the repository defines or raises it). -/
inductive PyError where
  | valueError (msg : String)
  | farAwayRupture (msg : String)
  | invalidDistanceMetric (msg : String)
deriving DecidableEq, Repr

/-- The exception class of an error. -/
def PyError.kind : PyError → EKind
  | .valueError _ => .valueError
  | .farAwayRupture _ => .farAwayRupture
  | .invalidDistanceMetric _ => .invalidDistanceMetric

/-- The message carried by an error. -/
def PyError.msg : PyError → String
  | .valueError m => m
  | .farAwayRupture m => m
  | .invalidDistanceMetric m => m

/-- Rebuild an error from a class and a message (the `etype(msg)` call in
`get_pmap_by_grp`). -/
def mkPyError : EKind → String → PyError
  | .valueError, m => .valueError m
  | .farAwayRupture, m => .farAwayRupture m
  | .invalidDistanceMetric, m => .invalidDistanceMetric m

/-- A numpy array together with its `flags.writeable` bit. -/
structure NpArray where
  data : List ℚ
  writeable : Bool := true
deriving DecidableEq, Repr

/-- A mesh of points (`lons`/`lats` aligned). -/
structure Mesh where
  lons : List ℚ := []
  lats : List ℚ := []
deriving DecidableEq, Repr

/-- A site collection: ordered sids with aligned coordinates.
`complete_len` is the size of the backing complete collection
(`sites.complete`), which boolean-mask filtering preserves. -/
structure SiteCollection where
  sids : List Int := []
  lons : List ℚ := []
  lats : List ℚ := []
  complete_len : Nat := 0
deriving DecidableEq, Repr

/-- An all-zero distance array over a site collection, used as a default
for surface capability fields. -/
def zeroArr (s : SiteCollection) : NpArray :=
  { data := s.sids.map (fun _ => 0), writeable := true }

/-- Rupture surface capabilities consumed by `get_distances`,
`add_rup_params` and `RupData.add` (external geometry library,
modelled as black-box functions). -/
structure Surface where
  get_min_distance : SiteCollection → NpArray := zeroArr
  get_rx_distance : SiteCollection → NpArray := zeroArr
  get_ry0_distance : SiteCollection → NpArray := zeroArr
  get_joyner_boore_distance : SiteCollection → NpArray := zeroArr
  get_azimuth : SiteCollection → NpArray := zeroArr
  get_azimuth_of_closest_point : SiteCollection → NpArray := zeroArr
  get_closest_points : SiteCollection → Mesh := fun s => { lons := s.lons, lats := s.lats }
  get_strike : ℚ := 0
  get_dip : ℚ := 0
  get_top_edge_depth : ℚ := 0
  get_width : ℚ := 0

/-- Hypocenter of a rupture; `distance_to_mesh` takes the `with_depths`
flag of the source call sites. -/
structure Hypocenter where
  longitude : ℚ := 0
  latitude : ℚ := 0
  depth : ℚ := 0
  distance_to_mesh : SiteCollection → Bool → NpArray := fun s _ => zeroArr s

/-- A GSIM as consumed by `_make_pnes`: only the optional per-IMT weight
matters there (`hasattr(gsim, 'weight')` is modelled by the `Option`). -/
structure Gsim where
  weight : Option (String → ℚ) := none

/-- Rupture / rupture-context record.  The source uses one duck-typed
object for both roles; `attrs` holds the attributes injected by
`add_rup_params` (the source uses `setattr`/`getattr`).
`occurrence_rate = none` models the NaN sentinel of nonparametric
ruptures.  `tom` is the external temporal occurrence model
(`tom.get_probability_no_exceedance(rate, poe)`, elementwise), and
`poesFor` is the poes tensor (sites × levels × gsims) that the external
`base.get_poes` evaluation yields for this rupture on given sites. -/
structure RuptureContext where
  mag : ℚ := 0
  rake : ℚ := 0
  rup_id : Int := 0
  tectonic_region_type : String := ""
  occurrence_rate : Option ℚ := none
  probs_occur : List ℚ := []
  weight : Option ℚ := none
  surface : Surface := {}
  hypocenter : Hypocenter := {}
  get_cdppvalue : SiteCollection → NpArray := zeroArr
  tom : ℚ → ℚ → ℚ := fun _ _ => 1
  poesFor : SiteCollection → List (List (List ℚ)) := fun _ => []
  attrs : List (String × ℚ) := []

/-- Sum `Σ_k p_k · (1 − poe)^k` over the occurrence probabilities
(the list comprehension plus `numpy.sum(..., axis=0)` of the
nonparametric branch, at one array element). -/
def pkSum (probs : List ℚ) (poe : ℚ) : ℚ :=
  (probs.enum.map (fun iv => iv.2 * (1 - poe) ^ iv.1)).sum

/-- One array element of `RuptureContext.get_probability_no_exceedance`.
Nonparametric branch: the `Σ_k p_k (1-poes)^k` sum, then the two
post-passes `prob_no_exceed[prob_no_exceed > 1.] = 1.` and
`prob_no_exceed[poes == 0.] = 1.` (the latter two run only when the sum
is an ndarray, i.e. when `probs_occur` is nonempty).  Parametric branch:
delegation to the temporal occurrence model. -/
def pneScalar (rup : RuptureContext) (poe : ℚ) : ℚ :=
  match rup.occurrence_rate with
  | none =>
      let s := pkSum rup.probs_occur poe
      if rup.probs_occur.isEmpty then s
      else if poe = 0 then 1 else if 1 < s then 1 else s
  | some rate => rup.tom rate poe

/-- `RuptureContext.get_probability_no_exceedance` on a (flattened) poes
array: the source's numpy operations are elementwise over the array. -/
def RuptureContext.get_probability_no_exceedance
    (rup : RuptureContext) (poes : List ℚ) : List ℚ :=
  poes.map (pneScalar rup)

/-- The nonparametric non-exceedance formula exactly as the specification
words it (claim C1): elementwise `pne = Σ_k p_k (1−poes)^k`, clamp values
exceeding 1 back to 1, force `pne = 1` wherever `poes == 0`. -/
def specNonparamPne (probs : List ℚ) (poes : List ℚ) : List ℚ :=
  poes.map (fun poe =>
    let s := pkSum probs poe
    if poe = 0 then 1 else if 1 < s then 1 else s)

/-- A nonparametric rupture carrying the given occurrence probabilities
(`occurrence_rate` is the NaN sentinel). -/
def mkNonparamRup (probs : List ℚ) : RuptureContext :=
  { occurrence_rate := none, probs_occur := probs }

/-- C1: for a nonparametric rupture with a nonempty `probs_occur` vector
(the data model requires the probabilities to sum to 1) and any poes array
with values in [0, 1], `get_probability_no_exceedance` returns elementwise
`Σ_k p_k (1−poes)^k`, clamped above by 1 and forced to 1 where
`poes == 0` — i.e. exactly the specification's formula. -/
theorem C1_nonparam_pne (probs poes : List ℚ) (hne : probs ≠ [])
    (hrange : ∀ x ∈ poes, 0 ≤ x ∧ x ≤ 1) :
    (mkNonparamRup probs).get_probability_no_exceedance poes =
      specNonparamPne probs poes := by
  unfold RuptureContext.get_probability_no_exceedance specNonparamPne
  refine List.map_congr_left ?_
  intro poe _
  simp only [pneScalar, mkNonparamRup, List.isEmpty_iff]
  simp [hne]

/-- C1 witness: `probs_occur = [0.5, 0.3, 0.2]`, `poes = [0.1]` satisfies
the hypotheses and yields `pne = [0.932]`. -/
theorem C1_nonparam_pne_witness :
    ([(1 : ℚ)/2, 3/10, 1/5] ≠ []) ∧
    (mkNonparamRup [(1 : ℚ)/2, 3/10, 1/5]).get_probability_no_exceedance
        [(1 : ℚ)/10] = [(233 : ℚ)/250] := by
  refine ⟨by decide, ?_⟩
  have h := C1_nonparam_pne [(1 : ℚ)/2, 3/10, 1/5] [(1 : ℚ)/10]
    (by decide) (by intro x hx; simp at hx; subst hx; constructor <;> norm_num)
  rw [h]
  unfold specNonparamPne pkSum
  norm_num [List.enum]

/-- The fixed catalogue of distance metrics (`KNOWN_DISTANCES`). -/
def KNOWN_DISTANCES : List String :=
  ["rrup", "rx", "ry0", "rjb", "rhypo", "repi", "rcdpp",
   "azimuth", "azimuth_cp", "rvolc"]

/-- The `dist.flags.writeable = False` post-pass of `get_distances`. -/
def setReadOnly : Except PyError NpArray → Except PyError NpArray
  | .ok d => .ok { d with writeable := false }
  | .error e => .error e

/-- `get_distances(rupture, mesh, param)`: dispatch over the metric
catalogue; `rvolc` yields `numpy.zeros_like(mesh.lons)`; an unknown
metric raises `ValueError('Unknown distance measure %r' % param)`;
`dist.flags.writeable = False` is set on the returned array. -/
def get_distances (rupture : RuptureContext) (mesh : SiteCollection)
    (param : String) : Except PyError NpArray :=
  setReadOnly <|
    if param = "rrup" then .ok (rupture.surface.get_min_distance mesh)
    else if param = "rx" then .ok (rupture.surface.get_rx_distance mesh)
    else if param = "ry0" then .ok (rupture.surface.get_ry0_distance mesh)
    else if param = "rjb" then .ok (rupture.surface.get_joyner_boore_distance mesh)
    else if param = "rhypo" then .ok (rupture.hypocenter.distance_to_mesh mesh true)
    else if param = "repi" then .ok (rupture.hypocenter.distance_to_mesh mesh false)
    else if param = "rcdpp" then .ok (rupture.get_cdppvalue mesh)
    else if param = "azimuth" then .ok (rupture.surface.get_azimuth mesh)
    else if param = "azimuth_cp" then .ok (rupture.surface.get_azimuth_of_closest_point mesh)
    else if param = "rvolc" then .ok { data := mesh.lons.map (fun _ => 0), writeable := true }
    else .error (.valueError ("Unknown distance measure '" ++ param ++ "'"))

/-- The exception class of the result, when the result is an error. -/
def errKindOf {α : Type} : Except PyError α → Option EKind
  | .error e => some e.kind
  | .ok _ => none

/-- Boolean-mask selection (`array[mask]`, `sites.filter(mask)` on one
column): keep the entries whose mask bit is true. -/
def listMask {α : Type} (l : List α) (mask : List Bool) : List α :=
  ((l.zip mask).filter (fun p => p.2)).map (fun p => p.1)

/-- `sites.filter(mask)`: mask every aligned column, keep the backing
complete collection. -/
def SiteCollection.filterMask (s : SiteCollection) (mask : List Bool) :
    SiteCollection :=
  { sids := listMask s.sids mask
    lons := listMask s.lons mask
    lats := listMask s.lats mask
    complete_len := s.complete_len }

/-- `DistancesContext`: the dynamically-set distance attributes, as an
association list parameter-name → array. -/
structure DistancesContext where
  pairs : List (String × List ℚ) := []
deriving DecidableEq, Repr

/-- Truncation toward zero, as Python's `'%d' % x` applies to a float. -/
def truncQ (x : ℚ) : Int := x.num / (x.den : Int)

/-- `distances.min()` (0 on the empty array, where numpy would raise;
the callers below only reach this on nonempty arrays). -/
def listMin (l : List ℚ) : ℚ := l.foldl min (l.headD 0)

/-- The ContextMaker state after `__init__`: the precomputed unions of the
GSIM requirements, the resolved `filter_distance`, the configuration
callables, and the flattened log-level index (`llIdx.get l` is the IMT
owning row `l` of the (L, G) arrays, the flattening of
`self.loglevels`). -/
structure ContextMaker where
  trt : String := ""
  gsims : List Gsim := []
  maximum_distance : String → ℚ → ℚ := fun _ _ => 0
  max_sites_disagg : Nat := 10
  filter_distance : String := "rrup"
  REQUIRES_DISTANCES : List String := ["rrup"]
  REQUIRES_RUPTURE_PARAMETERS : List String := []
  llIdx : List String := []

/-- The effective maximum distance of `ContextMaker.filter`:
`mdist = mdist or self.maximum_distance(trt, mag)`.  Python `or` falls
back when `mdist` is `None` **or zero** (a falsy float). -/
def effectiveMdist (cm : ContextMaker) (rupture : RuptureContext)
    (mdist : Option ℚ) : ℚ :=
  match mdist with
  | some m => if m = 0 then cm.maximum_distance rupture.tectonic_region_type rupture.mag
              else m
  | none => cm.maximum_distance rupture.tectonic_region_type rupture.mag

/-- `ContextMaker.filter(sites, rupture, mdist)`: compute the
filter-distance array, resolve the maximum distance, mask the sites with
`distances <= mdist`; raise `FarAwayRupture('%d: %d km' % ...)` when no
site survives, otherwise return the surviving sites and a
DistancesContext holding the masked distances under `filter_distance`. -/
def ContextMaker.filter (cm : ContextMaker) (sites : SiteCollection)
    (rupture : RuptureContext) (mdist : Option ℚ) :
    Except PyError (SiteCollection × DistancesContext) :=
  match get_distances rupture sites cm.filter_distance with
  | .error e => .error e
  | .ok darr =>
    let distances := darr.data
    let md := effectiveMdist cm rupture mdist
    let mask := distances.map (fun d => decide (d ≤ md))
    if mask.any (fun b => b) then
      .ok (sites.filterMask mask,
           { pairs := [(cm.filter_distance, listMask distances mask)] })
    else
      .error (.farAwayRupture
        (toString rupture.rup_id ++ ": " ++ toString (truncQ (listMin distances)) ++ " km"))

/-- A concrete surface whose every distance query answers `v` per site. -/
def constSurface (v : ℚ) : Surface :=
  { get_min_distance := fun s => { data := s.sids.map (fun _ => v), writeable := true }
    get_rx_distance := fun s => { data := s.sids.map (fun _ => v), writeable := true }
    get_ry0_distance := fun s => { data := s.sids.map (fun _ => v), writeable := true }
    get_joyner_boore_distance := fun s => { data := s.sids.map (fun _ => v), writeable := true }
    get_azimuth := fun s => { data := s.sids.map (fun _ => v), writeable := true }
    get_azimuth_of_closest_point := fun s => { data := s.sids.map (fun _ => v), writeable := true } }

/-- A concrete parametric rupture sitting 5 km from every site. -/
def rupFix : RuptureContext :=
  { rup_id := 7, mag := 6, tectonic_region_type := "ASC",
    occurrence_rate := some 1, surface := constSurface 5 }

/-- A concrete one-site collection. -/
def sitesFix : SiteCollection :=
  { sids := [0], lons := [0], lats := [0], complete_len := 1 }

/-- A concrete ContextMaker with `filter_distance = 'rrup'` and
`maximum_distance` constantly 10 km. -/
def cmFix : ContextMaker :=
  { maximum_distance := fun _ _ => 10, filter_distance := "rrup",
    REQUIRES_DISTANCES := ["rrup"], llIdx := ["PGA"], gsims := [{}] }

/-- C8 counterexample: the unknown metric `'foo'` makes `get_distances`
fail with `ValueError('Unknown distance measure %r')`; no
`InvalidDistanceMetric` class exists in the code, so the raised error is
not of that kind. -/
theorem C8_counterexample :
    get_distances rupFix sitesFix "foo" =
      .error (.valueError "Unknown distance measure 'foo'") ∧
    errKindOf (get_distances rupFix sitesFix "foo") = some EKind.valueError ∧
    errKindOf (get_distances rupFix sitesFix "foo") ≠ some EKind.invalidDistanceMetric := by
  refine ⟨by rfl, by rfl, by decide⟩

/-- C8 (amended): a metric outside the fixed catalogue makes
`get_distances` fail with `ValueError('Unknown distance measure %r')`
(the code has no `InvalidDistanceMetric` class); `rvolc` yields an
all-zero array of length `len(mesh)`; and every successfully returned
array carries `writeable = false`. -/
theorem C8_get_distances (rupture : RuptureContext) (mesh : SiteCollection)
    (param : String) (hunk : param ∉ KNOWN_DISTANCES) :
    get_distances rupture mesh param =
      .error (.valueError ("Unknown distance measure '" ++ param ++ "'")) ∧
    get_distances rupture mesh "rvolc" =
      .ok { data := mesh.lons.map (fun _ => 0), writeable := false } ∧
    (∀ (q : String) (arr : NpArray),
      get_distances rupture mesh q = .ok arr → arr.writeable = false) := by
  refine ⟨?_, by rfl, ?_⟩
  · simp only [KNOWN_DISTANCES, List.mem_cons, List.not_mem_nil, or_false] at hunk
    push_neg at hunk
    obtain ⟨h1, h2, h3, h4, h5, h6, h7, h8, h9, h10⟩ := hunk
    simp [get_distances, setReadOnly, h1, h2, h3, h4, h5, h6, h7, h8, h9, h10]
  · intro q arr h
    unfold get_distances at h
    revert h
    generalize (if q = "rrup" then Except.ok (rupture.surface.get_min_distance mesh)
      else if q = "rx" then Except.ok (rupture.surface.get_rx_distance mesh)
      else if q = "ry0" then Except.ok (rupture.surface.get_ry0_distance mesh)
      else if q = "rjb" then Except.ok (rupture.surface.get_joyner_boore_distance mesh)
      else if q = "rhypo" then Except.ok (rupture.hypocenter.distance_to_mesh mesh true)
      else if q = "repi" then Except.ok (rupture.hypocenter.distance_to_mesh mesh false)
      else if q = "rcdpp" then Except.ok (rupture.get_cdppvalue mesh)
      else if q = "azimuth" then Except.ok (rupture.surface.get_azimuth mesh)
      else if q = "azimuth_cp" then Except.ok (rupture.surface.get_azimuth_of_closest_point mesh)
      else if q = "rvolc" then Except.ok { data := mesh.lons.map (fun _ => 0), writeable := true }
      else Except.error (PyError.valueError ("Unknown distance measure '" ++ q ++ "'"))) = r
    intro h
    match r, h with
    | .ok d, h => injection h with h2; rw [← h2]
    | .error e, h => exact absurd h (by simp [setReadOnly])

/-- C8 witness: the metric `'qux'` is outside the catalogue; applying the
theorem there shows the ValueError, the rvolc zeros of length 1, and the
read-only flag of the `rrup` result. -/
theorem C8_get_distances_witness :
    ("qux" ∉ KNOWN_DISTANCES) ∧
    get_distances rupFix sitesFix "qux" =
      .error (.valueError "Unknown distance measure 'qux'") ∧
    get_distances rupFix sitesFix "rvolc" =
      .ok { data := [0], writeable := false } ∧
    (get_distances rupFix sitesFix "rrup" = .ok { data := [5], writeable := false } →
      ({ data := [5], writeable := false } : NpArray).writeable = false) := by
  have h := C8_get_distances rupFix sitesFix "qux" (by decide)
  exact ⟨by decide, h.1, by rfl, fun hq => h.2.2 "rrup" _ hq⟩

/-- Masking a list with its own pointwise test is filtering. -/
theorem listMask_self_map {p : ℚ → Bool} :
    ∀ (l : List ℚ), listMask l (l.map p) = l.filter p := by
  intro l
  induction l with
  | nil => rfl
  | cons a t ih =>
      by_cases hp : p a <;> simp [listMask, List.filter, hp] at ih ⊢ <;> exact ih

/-- Masking a parallel list with the pointwise test of the second list is
zip-filter-project, for lists of equal length. -/
theorem listMask_zip_filter {p : ℚ → Bool} :
    ∀ (a : List Int) (b : List ℚ), a.length = b.length →
      listMask a (b.map p) =
        ((a.zip b).filter (fun q => p q.2)).map (fun q => q.1) := by
  intro a
  induction a with
  | nil => intro b _; rfl
  | cons x t ih =>
      intro b hb
      cases b with
      | nil => simp at hb
      | cons y u =>
          simp only [List.length_cons, Nat.succ.injEq] at hb
          by_cases hp : p y <;>
            simp [listMask, List.zip_cons_cons, List.filter, hp] at ih ⊢ <;>
            exact ih u hb

/-- C5 counterexample: with a supplied `mdist = 0`, a site at distance
5 km and `maximum_distance = 10`, `filter` keeps the site (Python's
`mdist or self.maximum_distance(...)` treats the **given** 0 as absent),
although no site satisfies `d ≤ 0`; the claim as stated would require a
`FarAwayRupture` here. -/
theorem C5_counterexample :
    cmFix.filter sitesFix rupFix (some 0) =
      .ok (sitesFix, { pairs := [("rrup", [5])] }) ∧
    ¬ ((5 : ℚ) ≤ 0) := by
  constructor
  · rfl
  · norm_num

/-- C5 (amended): `filter` computes `d = get_distances(rupture, sites,
filter_distance)`, uses the supplied `mdist` when it is given **and
nonzero** (a `None` or zero `mdist` falls back to
`maximum_distance(trt, mag)`, Python `or` semantics — see
`effectiveMdist`), raises `FarAwayRupture` iff no site satisfies
`d ≤ mdist`, and otherwise returns exactly the sites with `d ≤ mdist`
and a DistancesContext holding the surviving distances under
`filter_distance`. -/
theorem C5_filter (cm : ContextMaker) (sites : SiteCollection)
    (rupture : RuptureContext) (mdist : Option ℚ) (darr : NpArray)
    (hgd : get_distances rupture sites cm.filter_distance = .ok darr)
    (hne : darr.data ≠ [])
    (hlen : sites.sids.length = darr.data.length) :
    ((∃ m, cm.filter sites rupture mdist = .error (.farAwayRupture m)) ↔
      ∀ x ∈ darr.data, effectiveMdist cm rupture mdist < x) ∧
    (∀ out, cm.filter sites rupture mdist = .ok out →
      out.1.sids = ((sites.sids.zip darr.data).filter
          (fun q => decide (q.2 ≤ effectiveMdist cm rupture mdist))).map (fun q => q.1) ∧
      out.2.pairs = [(cm.filter_distance,
          darr.data.filter (fun x => decide (x ≤ effectiveMdist cm rupture mdist)))]) := by
  have hmask : (darr.data.map (fun d => decide (d ≤ effectiveMdist cm rupture mdist))).any
      (fun b => b) = true ↔
      ∃ x ∈ darr.data, x ≤ effectiveMdist cm rupture mdist := by
    simp [List.any_map, List.any_eq_true, Function.comp]
  constructor
  · constructor
    · rintro ⟨m, hm⟩ x hx
      unfold ContextMaker.filter at hm
      rw [hgd] at hm
      by_contra hle
      push_neg at hle
      have : (darr.data.map (fun d => decide (d ≤ effectiveMdist cm rupture mdist))).any
          (fun b => b) = true := hmask.mpr ⟨x, hx, hle⟩
      simp only [this, if_true] at hm
      exact absurd hm (by simp)
    · intro hall
      refine ⟨toString rupture.rup_id ++ ": " ++ toString (truncQ (listMin darr.data)) ++ " km", ?_⟩
      unfold ContextMaker.filter
      rw [hgd]
      have : ¬ (darr.data.map (fun d => decide (d ≤ effectiveMdist cm rupture mdist))).any
          (fun b => b) = true := by
        rw [hmask]
        rintro ⟨x, hx, hle⟩
        exact absurd hle (not_le.mpr (hall x hx))
      simp only [Bool.not_eq_true] at this
      simp [this]
  · intro out hout
    unfold ContextMaker.filter at hout
    rw [hgd] at hout
    by_cases hany : (darr.data.map (fun d => decide (d ≤ effectiveMdist cm rupture mdist))).any
        (fun b => b) = true
    · simp only [hany, if_true, Except.ok.injEq] at hout
      subst hout
      constructor
      · exact listMask_zip_filter sites.sids darr.data hlen
      · rw [listMask_self_map]
    · simp only [Bool.not_eq_true] at hany
      simp [hany] at hout

/-- C5 witness: one site at 5 km, no supplied mdist, maximum distance
10 km — the site survives and the DistancesContext holds `[5]` under
`rrup`; instantiates both conjuncts of the theorem. -/
theorem C5_filter_witness :
    get_distances rupFix sitesFix cmFix.filter_distance =
      .ok { data := [5], writeable := false } ∧
    cmFix.filter sitesFix rupFix none = .ok (sitesFix, { pairs := [("rrup", [5])] }) ∧
    (sitesFix.sids = [(0 : Int)] ∧
      ¬ ∀ x ∈ ({ data := [5], writeable := false } : NpArray).data,
          effectiveMdist cmFix rupFix none < x) := by
  have h := C5_filter cmFix sitesFix rupFix none { data := [5], writeable := false }
    (by rfl) (by decide) (by decide)
  refine ⟨by rfl, by rfl, by decide, ?_⟩
  intro hall
  have := h.1.mpr hall
  obtain ⟨m, hm⟩ := this
  have hok : cmFix.filter sitesFix rupFix none =
      .ok (sitesFix, { pairs := [("rrup", [5])] }) := by rfl
  rw [hok] at hm
  exact absurd hm (by simp)

/-- Association lookup (sparse `ProbabilityMap` access by sid). -/
def alookup {β : Type} (k : Int) : List (Int × β) → Option β
  | [] => none
  | (a, b) :: t => if a = k then some b else alookup k t

/-- `pmap.setdefault(sid, fill)` followed by an in-place combine of the
entry's array: update the entry when the sid is present, otherwise insert
the combined fill array.  Modelled from the spec: `ProbabilityMap`
(module `openquake.hazardlib.probability_map`, not under src) is a sparse
sid → array map whose `setdefault` creates a dense array filled with the
identity of the chosen regime. -/
def assocUpdate {β : Type} (l : List (Int × β)) (k : Int) (f : β → β)
    (ini : β) : List (Int × β) :=
  match l with
  | [] => [(k, f ini)]
  | (a, b) :: t => if a = k then (a, f b) :: t else (a, b) :: assocUpdate t k f ini

/-- Elementwise product of two arrays (`array *= pne`). -/
def arrMul (a b : List ℚ) : List ℚ := (a.zip b).map (fun p => p.1 * p.2)

/-- Elementwise `array += (1 - pne) * w` (the mutex update with scalar
weight `w`). -/
def arrMutexAdd (a pne : List ℚ) (w : ℚ) : List ℚ :=
  (a.zip pne).map (fun p => p.1 + (1 - p.2) * w)

/-- The `rup_indep` inner loop of `get_pmap` (lines 327-329):
`for sid, pne in pairs: poemap.setdefault(sid, rup_indep).array *= pne`,
with `setdefault`'s fill value `float(True) = 1`. -/
def pneLoopIndep (LG : Nat) (pm : List (Int × List ℚ))
    (pairs : List (Int × List ℚ)) : List (Int × List ℚ) :=
  pairs.foldl
    (fun pm p => assocUpdate pm p.1 (fun arr => arrMul arr p.2) (List.replicate LG 1))
    pm

/-- The mutex inner loop of `get_pmap` (lines 331-333):
`for sid, pne in pairs: poemap.setdefault(sid, rup_indep).array +=
(1.-pne) * rup.weight`, with fill value `float(False) = 0`.  NB: `rup`
here is the variable leaked from the context loop `for rup in rups`, so
the **same** scalar weight `wlast` (the weight of the last iterated
rupture of the batch) multiplies every pair. -/
def pneLoopMutex (LG : Nat) (wlast : ℚ) (pm : List (Int × List ℚ))
    (pairs : List (Int × List ℚ)) : List (Int × List ℚ) :=
  pairs.foldl
    (fun pm p => assocUpdate pm p.1 (fun arr => arrMutexAdd arr p.2 wlast)
      (List.replicate LG 0))
    pm

theorem alookup_assocUpdate_self {β : Type} (k : Int) (f : β → β) (ini : β) :
    ∀ (l : List (Int × β)),
      alookup k (assocUpdate l k f ini) = some (f ((alookup k l).getD ini)) := by
  intro l
  induction l with
  | nil => simp [assocUpdate, alookup]
  | cons p t ih =>
      obtain ⟨a, b⟩ := p
      by_cases ha : a = k
      · subst ha
        simp [assocUpdate, alookup]
      · simp [assocUpdate, alookup, ha, ih]

theorem alookup_assocUpdate_other {β : Type} (k k' : Int) (hk : k' ≠ k)
    (f : β → β) (ini : β) :
    ∀ (l : List (Int × β)),
      alookup k' (assocUpdate l k f ini) = alookup k' l := by
  have hk2 : ¬ (k = k') := fun h => hk h.symm
  intro l
  induction l with
  | nil => simp [assocUpdate, alookup, hk2]
  | cons p t ih =>
      obtain ⟨a, b⟩ := p
      by_cases ha : a = k
      · subst ha
        simp [assocUpdate, alookup, hk2]
      · simp [assocUpdate, alookup, ha, ih]

/-- The running value of one sid under the independent loop: starting from
the current entry (or the identity fill if absent), fold the contributing
pne arrays with the elementwise product. -/
theorem pneLoopIndep_alookup (LG : Nat) (sid : Int) :
    ∀ (pairs pm : List (Int × List ℚ)),
      alookup sid (pneLoopIndep LG pm pairs) =
        (if ((pairs.filter (fun p => decide (p.1 = sid))).map (fun p => p.2)).isEmpty
         then alookup sid pm
         else some (((pairs.filter (fun p => decide (p.1 = sid))).map (fun p => p.2)).foldl
            arrMul ((alookup sid pm).getD (List.replicate LG 1)))) := by
  intro pairs
  induction pairs with
  | nil => intro pm; simp [pneLoopIndep]
  | cons p rest ih =>
      intro pm
      obtain ⟨k, pne⟩ := p
      have hstep : pneLoopIndep LG pm ((k, pne) :: rest) =
          pneLoopIndep LG (assocUpdate pm k (fun arr => arrMul arr pne)
            (List.replicate LG 1)) rest := rfl
      rw [hstep, ih]
      by_cases hk : k = sid
      · subst hk
        have hself := alookup_assocUpdate_self k (fun arr => arrMul arr pne)
          (List.replicate LG 1) pm
        have hfil : ((k, pne) :: rest).filter (fun p => decide (p.1 = k)) =
            (k, pne) :: rest.filter (fun p => decide (p.1 = k)) := by
          simp [List.filter]
        rw [hfil, hself]
        by_cases hE : ((rest.filter (fun p => decide (p.1 = k))).map (fun p => p.2)).isEmpty
        · have hM : (rest.filter (fun p => decide (p.1 = k))).map (fun p => p.2) = [] := by
            simpa [List.isEmpty_iff] using hE
          simp [hE, hM]
        · simp [hE, List.foldl_cons]
      · have hother := alookup_assocUpdate_other k sid (fun h => hk h.symm)
          (fun arr => arrMul arr pne) (List.replicate LG 1) pm
        have hfil : ((k, pne) :: rest).filter (fun p => decide (p.1 = sid)) =
            rest.filter (fun p => decide (p.1 = sid)) := by
          simp [List.filter, hk]
        rw [hfil, hother]

/-- C2: in the `rup_indep` regime, for every sid that receives at least
one contribution the stored `ProbabilityMap` array is the running
elementwise product of the contributing pne arrays, starting from the
identity fill `1`; a sid with no contribution is absent from the map. -/
theorem C2_indep_product (LG : Nat) (pairs : List (Int × List ℚ)) (sid : Int) :
    (sid ∈ pairs.map (fun p => p.1) →
      alookup sid (pneLoopIndep LG [] pairs) =
        some (((pairs.filter (fun p => decide (p.1 = sid))).map (fun p => p.2)).foldl
          arrMul (List.replicate LG 1))) ∧
    (sid ∉ pairs.map (fun p => p.1) →
      alookup sid (pneLoopIndep LG [] pairs) = none) := by
  have h := pneLoopIndep_alookup LG sid pairs []
  constructor
  · intro hmem
    obtain ⟨q, hq, hq1⟩ := List.mem_map.mp hmem
    have hne : ¬ ((pairs.filter (fun p => decide (p.1 = sid))).map (fun p => p.2)).isEmpty := by
      intro hE
      have hnil : pairs.filter (fun p => decide (p.1 = sid)) = [] := by
        have := List.isEmpty_iff.mp hE
        exact List.map_eq_nil_iff.mp this
      have hq2 : q ∈ pairs.filter (fun p => decide (p.1 = sid)) :=
        List.mem_filter.mpr ⟨hq, by simp [hq1]⟩
      rw [hnil] at hq2
      exact absurd hq2 (List.not_mem_nil q)
    rw [h]
    simp [hne, alookup]
  · intro hmem
    have he : ((pairs.filter (fun p => decide (p.1 = sid))).map (fun p => p.2)).isEmpty := by
      rw [List.isEmpty_iff, List.map_eq_nil_iff]
      rw [List.filter_eq_nil_iff]
      intro q hq
      simp only [decide_eq_true_eq]
      intro hq1
      exact hmem (List.mem_map.mpr ⟨q, hq, hq1⟩)
    rw [h]
    simp [he, alookup]

/-- C2 witness: two independent contributions to sid 0 with pne arrays
`[0.9]` and `[0.8]` leave the stored value `[0.72]`. -/
theorem C2_indep_product_witness :
    ((0 : Int) ∈ ([((0 : Int), [(9 : ℚ)/10]), ((0 : Int), [(4 : ℚ)/5])].map
        (fun p => p.1))) ∧
    alookup 0 (pneLoopIndep 1 [] [((0 : Int), [(9 : ℚ)/10]), ((0 : Int), [(4 : ℚ)/5])]) =
      some [(18 : ℚ)/25] := by
  refine ⟨by decide, ?_⟩
  have h := (C2_indep_product 1 [((0 : Int), [(9 : ℚ)/10]), ((0 : Int), [(4 : ℚ)/5])] 0).1
    (by decide)
  rw [h]
  simp [arrMul, List.foldl, List.replicate]
  norm_num

/-- `_collapse(rups)`: shallow-copy the first rupture and multiply its
occurrence rate by `len(rups)` (`rup.occurrence_rate *= len(rups)`;
`none` — the NaN sentinel — absorbs the product as NaN does).  The
source indexes `rups[0]`, so the empty list is outside its domain. -/
def _collapse (rups : List RuptureContext) : Option RuptureContext :=
  match rups with
  | [] => none
  | r :: _ => some { r with occurrence_rate := r.occurrence_rate.map (fun x => x * rups.length) }

/-- C4 counterexample: collapsing two ruptures with rates 1 and 3 yields
a representative with rate `1 * 2 = 2`, not the sum `1 + 3 = 4` the claim
requires. -/
theorem C4_counterexample :
    (_collapse [{ occurrence_rate := some 1 }, { occurrence_rate := some 3 }]).map
        (fun r => r.occurrence_rate) = some (some 2) ∧
    ((2 : ℚ) ≠ 1 + 3) := by
  constructor
  · norm_num [_collapse]
  · norm_num

/-- C4 (amended): for every non-empty rupture list, `_collapse` returns a
single representative — a shallow copy of the first rupture, every other
attribute inherited — whose occurrence rate is the **first rupture's rate
multiplied by the number of ruptures** (not the sum of the rates in
general); when all contributing ruptures carry the same rate the product
does equal the sum of the contributing rates.  The input list is not
mutated (the embedding is pure; the source takes `copy.copy(rups[0])`
before writing the rate). -/
theorem C4_collapse (r : RuptureContext) (rest : List RuptureContext) :
    (∀ out, _collapse (r :: rest) = some out →
      out.occurrence_rate = r.occurrence_rate.map (fun x => x * ((r :: rest).length : ℚ)) ∧
      out.mag = r.mag ∧ out.rake = r.rake ∧ out.rup_id = r.rup_id ∧
      out.tectonic_region_type = r.tectonic_region_type ∧
      out.probs_occur = r.probs_occur ∧ out.weight = r.weight ∧
      out.surface = r.surface ∧ out.hypocenter = r.hypocenter ∧
      out.tom = r.tom ∧ out.poesFor = r.poesFor ∧ out.attrs = r.attrs) ∧
    (∀ (rate : ℚ), (∀ x ∈ r :: rest, x.occurrence_rate = some rate) →
      (_collapse (r :: rest)).map (fun o => o.occurrence_rate) =
        some (some (((r :: rest).map (fun x => x.occurrence_rate.getD 0)).sum))) := by
  constructor
  · intro out hout
    simp only [_collapse, Option.some.injEq] at hout
    subst hout
    refine ⟨rfl, rfl, rfl, rfl, rfl, rfl, rfl, rfl, rfl, rfl, rfl, rfl⟩
  · intro rate hall
    have hsum : ∀ (l : List RuptureContext), (∀ x ∈ l, x.occurrence_rate = some rate) →
        (l.map (fun x => x.occurrence_rate.getD 0)).sum = rate * l.length := by
      intro l
      induction l with
      | nil => intro _; simp
      | cons a t ih =>
          intro h
          have ha := h a (List.mem_cons_self a t)
          have ht := ih (fun x hx => h x (List.mem_cons_of_mem a hx))
          simp [ha, ht]
          ring
    have hr := hall r (List.mem_cons_self r rest)
    simp only [_collapse, Option.map_some']
    rw [hsum (r :: rest) hall, hr]
    simp [mul_comm]

/-- C4 witness: two ruptures with the common rate 1 collapse to rate
`1 * 2 = 2`, which equals the sum of the contributing rates. -/
theorem C4_collapse_witness :
    (_collapse [{ occurrence_rate := some 1 }, { occurrence_rate := some 1 }]).map
        (fun o => o.occurrence_rate) = some (some 2) ∧
    (([({ occurrence_rate := some 1 } : RuptureContext),
       { occurrence_rate := some 1 }].map (fun x => x.occurrence_rate.getD 0)).sum = 2) := by
  have h := (C4_collapse { occurrence_rate := some 1 } [{ occurrence_rate := some 1 }]).2
    1 (by
      intro x hx
      rcases List.mem_cons.mp hx with h1 | h1
      · subst h1; rfl
      · rcases List.mem_cons.mp h1 with h2 | h2
        · subst h2; rfl
        · exact absurd h2 (List.not_mem_nil x))
  constructor
  · rw [h]
    norm_num
  · norm_num

/-- `hasattr(gsim, 'weight') and gsim.weight[imt] == 0`. -/
def gsimWeightZero (gs : Gsim) (imt : String) : Bool :=
  match gs.weight with
  | some w => decide (w imt = 0)
  | none => false

/-- The masking of one gsim-row of the poes tensor at a fixed (site,
level): `poes[:, ll(imt), g] = 0` for every g whose gsim has
`weight[imt] == 0`. -/
def maskCellRow (gsims : List Gsim) (imt : String) (cellRow : List ℚ) : List ℚ :=
  (cellRow.zip gsims).map (fun p => if gsimWeightZero p.2 imt then 0 else p.1)

/-- The masking of one site-row (an (L, G) slice): level row `l` belongs
to the IMT `llIdx.get l`. -/
def maskSiteRow (gsims : List Gsim) (llIdx : List String)
    (siteRow : List (List ℚ)) : List (List ℚ) :=
  (siteRow.zip llIdx).map (fun p => maskCellRow gsims p.2 p.1)

/-- The zero-weight masking loop of `_make_pnes` (lines 349-354) over the
whole (N, L, G) poes tensor. -/
def maskPoes (gsims : List Gsim) (llIdx : List String)
    (poes : List (List (List ℚ))) : List (List (List ℚ)) :=
  poes.map (maskSiteRow gsims llIdx)

/-- The per-site (L, G) slice of the non-exceedance computation of
`_make_pnes`: mask the poes, then apply the rupture's
`get_probability_no_exceedance` elementwise.  (The source references an
outer-scope name `rupture` here — flagged as an open question by the
specification — so the embedding threads the current rupture through
explicitly.) -/
def makePnesSite (gsims : List Gsim) (llIdx : List String)
    (rup : RuptureContext) (siteRow : List (List ℚ)) : List (List ℚ) :=
  (maskSiteRow gsims llIdx siteRow).map (fun cellRow => cellRow.map (pneScalar rup))

/-- The (l, g) cell of an (L, G) slice. -/
def cellAt (t : List (List ℚ)) (l g : Nat) : Option ℚ :=
  (t.get? l).bind (fun row => row.get? g)

/-- The per-cell trace of the independent update `array *= pne` across the
ruptures, from the identity 1. -/
def cellFoldIndep (cells : List ℚ) : ℚ :=
  cells.foldl (fun a c => a * c) 1

/-- The per-cell trace of the mutex update `array += (1 - pne) * weight`
across the ruptures, from the identity 0. -/
def cellFoldMutex (w : ℚ) (cells : List ℚ) : ℚ :=
  cells.foldl (fun a c => a + (1 - c) * w) 0

theorem getq_map {α β : Type} (f : α → β) :
    ∀ (l : List α) (n : Nat), (l.map f).get? n = (l.get? n).map f := by
  intro l
  induction l with
  | nil => intro n; cases n <;> rfl
  | cons a t ih => intro n; cases n with
      | zero => rfl
      | succ m => simpa using ih m

theorem getq_zip {α β : Type} :
    ∀ (a : List α) (b : List β) (n : Nat),
      (a.zip b).get? n = (a.get? n).bind (fun x => (b.get? n).map (fun y => (x, y))) := by
  intro a
  induction a with
  | nil => intro b n; cases n <;> rfl
  | cons x t ih =>
      intro b n
      cases b with
      | nil =>
          rw [List.zip_nil_right]
          cases hx : (x :: t).get? n <;> simp [hx]
      | cons y u =>
          cases n with
          | zero => rfl
          | succ m => simpa using ih u m

theorem cellFoldIndep_ones : ∀ (cells : List ℚ), (∀ c ∈ cells, c = 1) →
    cellFoldIndep cells = 1 := by
  have haux : ∀ (cells : List ℚ) (a : ℚ), (∀ c ∈ cells, c = 1) →
      cells.foldl (fun a c => a * c) a = a := by
    intro cells
    induction cells with
    | nil => intro a _; rfl
    | cons c t ih =>
        intro a h
        have hc := h c (List.mem_cons_self c t)
        subst hc
        rw [List.foldl_cons, mul_one]
        exact ih a (fun x hx => h x (List.mem_cons_of_mem _ hx))
  intro cells h
  exact haux cells 1 h

theorem cellFoldMutex_ones (w : ℚ) : ∀ (cells : List ℚ), (∀ c ∈ cells, c = 1) →
    cellFoldMutex w cells = 0 := by
  have haux : ∀ (cells : List ℚ) (a : ℚ), (∀ c ∈ cells, c = 1) →
      cells.foldl (fun a c => a + (1 - c) * w) a = a := by
    intro cells
    induction cells with
    | nil => intro a _; rfl
    | cons c t ih =>
        intro a h
        have hc := h c (List.mem_cons_self c t)
        subst hc
        rw [List.foldl_cons]
        have : a + (1 - 1) * w = a := by ring
        rw [this]
        exact ih a (fun x hx => h x (List.mem_cons_of_mem _ hx))
  intro cells h
  exact haux cells 0 h

/-- The masked-then-pne cell at a zero-weight (imt, g) column is exactly 1
for a rupture whose non-exceedance at `poe = 0` is 1 (nonparametric with
nonempty `probs_occur`, or parametric with `tom rate 0 = 1`). -/
theorem makePnesSite_zero_weight_cell (gsims : List Gsim) (llIdx : List String)
    (rup : RuptureContext) (siteRow : List (List ℚ)) (l g : Nat)
    (imt : String) (gs : Gsim) (w : String → ℚ)
    (hl : llIdx.get? l = some imt)
    (hg : gsims.get? g = some gs)
    (hw : gs.weight = some w) (hwz : w imt = 0)
    (hrow : siteRow.length = llIdx.length)
    (hcells : ∀ c ∈ siteRow, c.length = gsims.length)
    (hpne : pneScalar rup 0 = 1) :
    cellAt (makePnesSite gsims llIdx rup siteRow) l g = some 1 := by
  have hllen : l < llIdx.length := by
    by_contra hcon
    push_neg at hcon
    rw [List.get?_eq_none.mpr hcon] at hl
    exact absurd hl (by simp)
  have hlrow : l < siteRow.length := by rw [hrow]; exact hllen
  obtain ⟨cellRow, hcr⟩ : ∃ cr, siteRow.get? l = some cr := by
    rcases hx : siteRow.get? l with _ | cr
    · rw [List.get?_eq_none] at hx; omega
    · exact ⟨cr, rfl⟩
  have hcmem : cellRow ∈ siteRow := List.get?_mem hcr
  have hclen : cellRow.length = gsims.length := hcells cellRow hcmem
  have hglen : g < gsims.length := by
    by_contra hcon
    push_neg at hcon
    rw [List.get?_eq_none.mpr hcon] at hg
    exact absurd hg (by simp)
  have hgcell : g < cellRow.length := by rw [hclen]; exact hglen
  obtain ⟨poe, hpoe⟩ : ∃ v, cellRow.get? g = some v := by
    rcases hx : cellRow.get? g with _ | v
    · rw [List.get?_eq_none] at hx; omega
    · exact ⟨v, rfl⟩
  have hmaskrow : (maskSiteRow gsims llIdx siteRow).get? l =
      some (maskCellRow gsims imt cellRow) := by
    unfold maskSiteRow
    rw [getq_map, getq_zip, hcr, hl]
    rfl
  have hmaskcell : (maskCellRow gsims imt cellRow).get? g = some 0 := by
    unfold maskCellRow
    rw [getq_map, getq_zip, hpoe, hg]
    simp [gsimWeightZero, hw, hwz]
  unfold makePnesSite cellAt
  rw [getq_map, hmaskrow]
  have hred : (Option.map (fun cellRow => cellRow.map (pneScalar rup))
        (some (maskCellRow gsims imt cellRow))).bind (fun row => row.get? g) =
      ((maskCellRow gsims imt cellRow).map (pneScalar rup)).get? g := rfl
  rw [hred, getq_map, hmaskcell]
  simp [hpne]

/-- C6: for every GSIM column g whose per-IMT weight at `imt` is 0 and
every level row l belonging to `imt`, the masked poes cell is zeroed
before the non-exceedance computation, the per-rupture non-exceedance at
that cell is 1, and hence across all ruptures the ProbabilityMap column
stays at the regime identity: 1 under the independent product, 0 under
the mutex weighted sum (for any leaked weight). -/
theorem C6_zero_weight_masking (gsims : List Gsim) (llIdx : List String)
    (rups : List (RuptureContext × List (List ℚ))) (l g : Nat)
    (imt : String) (gs : Gsim) (w : String → ℚ)
    (hl : llIdx.get? l = some imt)
    (hg : gsims.get? g = some gs)
    (hw : gs.weight = some w) (hwz : w imt = 0)
    (hdim : ∀ p ∈ rups, p.2.length = llIdx.length ∧ ∀ c ∈ p.2, c.length = gsims.length)
    (hocc : ∀ p ∈ rups,
      (p.1.occurrence_rate = none ∧ p.1.probs_occur ≠ []) ∨
      (∃ rate, p.1.occurrence_rate = some rate ∧ p.1.tom rate 0 = 1)) :
    (∀ p ∈ rups, cellAt (makePnesSite gsims llIdx p.1 p.2) l g = some 1) ∧
    cellFoldIndep (rups.map (fun p =>
      (cellAt (makePnesSite gsims llIdx p.1 p.2) l g).getD 1)) = 1 ∧
    (∀ wlast : ℚ, cellFoldMutex wlast (rups.map (fun p =>
      (cellAt (makePnesSite gsims llIdx p.1 p.2) l g).getD 1)) = 0) := by
  have hcell : ∀ p ∈ rups, cellAt (makePnesSite gsims llIdx p.1 p.2) l g = some 1 := by
    intro p hp
    have hpne : pneScalar p.1 0 = 1 := by
      rcases hocc p hp with ⟨hnone, hne⟩ | ⟨rate, hrate, htom⟩
      · simp [pneScalar, hnone, List.isEmpty_iff, hne]
      · simp [pneScalar, hrate, htom]
    exact makePnesSite_zero_weight_cell gsims llIdx p.1 p.2 l g imt gs w
      hl hg hw hwz (hdim p hp).1 (hdim p hp).2 hpne
  have hones : ∀ c ∈ rups.map (fun p =>
      (cellAt (makePnesSite gsims llIdx p.1 p.2) l g).getD 1), c = 1 := by
    intro c hc
    obtain ⟨p, hp, hpc⟩ := List.mem_map.mp hc
    rw [hcell p hp] at hpc
    simpa using hpc.symm
  exact ⟨hcell, cellFoldIndep_ones _ hones, fun wlast => cellFoldMutex_ones wlast _ hones⟩

/-- C6 witness: one GSIM with weight 0 on `PGA`, one nonparametric
rupture with `probs_occur = [1]` and a nonzero poes cell 0.3 — the masked
pne cell is 1 and both regime folds stay at their identities. -/
theorem C6_zero_weight_masking_witness :
    cellAt (makePnesSite [{ weight := some (fun _ => 0) }] ["PGA"]
      (mkNonparamRup [1]) [[(3 : ℚ)/10]]) 0 0 = some 1 ∧
    cellFoldIndep [((cellAt (makePnesSite [{ weight := some (fun _ => 0) }] ["PGA"]
      (mkNonparamRup [1]) [[(3 : ℚ)/10]]) 0 0).getD 1)] = 1 ∧
    cellFoldMutex (7/10) [((cellAt (makePnesSite [{ weight := some (fun _ => 0) }] ["PGA"]
      (mkNonparamRup [1]) [[(3 : ℚ)/10]]) 0 0).getD 1)] = 0 := by
  have h := C6_zero_weight_masking [{ weight := some (fun _ => 0) }] ["PGA"]
    [(mkNonparamRup [1], [[(3 : ℚ)/10]])] 0 0 "PGA" { weight := some (fun _ => 0) }
    (fun _ => 0) rfl rfl rfl rfl
    (by
      intro p hp
      rcases List.mem_cons.mp hp with h1 | h1
      · subst h1
        refine ⟨rfl, ?_⟩
        intro c hc
        rcases List.mem_cons.mp hc with h2 | h2
        · subst h2; rfl
        · exact absurd h2 (List.not_mem_nil c)
      · exact absurd h1 (List.not_mem_nil p))
    (by
      intro p hp
      rcases List.mem_cons.mp hp with h1 | h1
      · subst h1
        exact Or.inl ⟨rfl, by simp [mkNonparamRup]⟩
      · exact absurd h1 (List.not_mem_nil p))
  obtain ⟨h1, h2, h3⟩ := h
  refine ⟨h1 _ (List.mem_cons_self _ _), ?_, ?_⟩
  · simpa using h2
  · simpa using h3 (7/10)

/-- Append a value to the column `key` of a column-oriented store
(`AccumDict(accum=[])`: a missing key starts from the empty column). -/
def assocAppendCol {β : Type} (cols : List (String × List β)) (key : String)
    (v : β) : List (String × List β) :=
  match cols with
  | [] => [(key, [v])]
  | (k, col) :: t => if k = key then (k, col ++ [v]) :: t
                     else (k, col) :: assocAppendCol t key v

/-- 16-bit signed narrowing (`numpy.int16`): wrap modulo 2^16 into
[-32768, 32767]. -/
def toInt16 (n : Int) : Int := (n + 32768) % 65536 - 32768

/-- 16-bit unsigned narrowing (`numpy.uint16`): wrap modulo 2^16 into
[0, 65535]. -/
def toUInt16 (n : Int) : Int := n % 65536

/-- The column store of `RupData` (`self.data`), with the fixed columns
explicit and the requirement-dependent columns (one per required rupture
parameter and one per required distance, suffixed `_`) as keyed column
lists.  `occurrence_rate` and `weight` columns hold `none` for NaN. -/
structure RupDataT where
  srcidx : List Int := []
  occurrence_rate : List (Option ℚ) := []
  weight : List (Option ℚ) := []
  probs_occur : List (List ℚ) := []
  rupParamCols : List (String × List ℚ) := []
  sid_ : List (List Int) := []
  distCols : List (String × List (List ℚ)) := []
  lon_ : List (List ℚ) := []
  lat_ : List (List ℚ) := []
deriving DecidableEq, Repr

/-- `getattr(rup, rup_param)` after `add_rup_params` has run: read the
injected attribute (0 if absent, which no reachable call produces). -/
def getattrQ (rup : RuptureContext) (p : String) : ℚ :=
  (rup.attrs.lookup p).getD 0

/-- `rup.weight or numpy.nan`: Python `or` maps a `None` **or zero**
weight to NaN. -/
def pyWeightOrNan (w : Option ℚ) : Option ℚ :=
  match w with
  | some x => if x = 0 then none else some x
  | none => none

/-- The distance array appended for one required distance parameter:
recompute via `get_distances` when no DistancesContext is given, else
reuse the stored attribute.  (The `F32` cast of the source is a float32
rounding, outside the exact rational embedding.) -/
def getDistsForAdd (rup : RuptureContext) (sctx : SiteCollection)
    (dctx : Option DistancesContext) (param : String) :
    Except PyError (List ℚ) :=
  match dctx with
  | none =>
      match get_distances rup sctx param with
      | .ok d => .ok d.data
      | .error e => .error e
  | some d => .ok ((d.pairs.lookup param).getD [])

/-- The `for dst_param in self.cmaker.REQUIRES_DISTANCES` loop of
`RupData.add`, appending one `param + '_'` column per parameter. -/
def distColsLoop (rup : RuptureContext) (sctx : SiteCollection)
    (dctx : Option DistancesContext) :
    List String → List (String × List (List ℚ)) →
    Except PyError (List (String × List (List ℚ)))
  | [], cols => .ok cols
  | p :: ps, cols =>
      match getDistsForAdd rup sctx dctx p with
      | .ok ds => distColsLoop rup sctx dctx ps (assocAppendCol cols (p ++ "_") ds)
      | .error e => .error e

/-- `RupData.add(rup, src_id, sctx, dctx)`: append one snapshot row —
source index (`src_id or 0`), occurrence rate, weight-or-NaN,
`probs_occur` (empty unless nonparametric), the required rupture
parameters, the sid vector narrowed to `numpy.int16`, the required
distance arrays, and the closest-point lon/lat arrays. -/
def RupData.add (cm : ContextMaker) (t : RupDataT) (rup : RuptureContext)
    (src_id : Option Int) (sctx : SiteCollection)
    (dctx : Option DistancesContext) : Except PyError RupDataT :=
  match distColsLoop rup sctx dctx cm.REQUIRES_DISTANCES t.distCols with
  | .error e => .error e
  | .ok dcols =>
      let closest := rup.surface.get_closest_points sctx
      .ok { srcidx := t.srcidx ++ [src_id.getD 0]
            occurrence_rate := t.occurrence_rate ++ [rup.occurrence_rate]
            weight := t.weight ++ [pyWeightOrNan rup.weight]
            probs_occur := t.probs_occur ++
              [match rup.occurrence_rate with
               | none => rup.probs_occur
               | some _ => []]
            rupParamCols := cm.REQUIRES_RUPTURE_PARAMETERS.foldl
              (fun cols p => assocAppendCol cols p (getattrQ rup p)) t.rupParamCols
            sid_ := t.sid_ ++ [sctx.sids.map toInt16]
            distCols := dcols
            lon_ := t.lon_ ++ [closest.lons]
            lat_ := t.lat_ ++ [closest.lats] }

/-- The dispatch of `add_rup_params`: value of one required rupture
parameter, `none` for an unknown name (the `ValueError` branch). -/
def rupParamValue (r : RuptureContext) (p : String) : Option ℚ :=
  if p = "mag" then some r.mag
  else if p = "strike" then some r.surface.get_strike
  else if p = "dip" then some r.surface.get_dip
  else if p = "rake" then some r.rake
  else if p = "ztor" then some r.surface.get_top_edge_depth
  else if p = "hypo_lon" then some r.hypocenter.longitude
  else if p = "hypo_lat" then some r.hypocenter.latitude
  else if p = "hypo_depth" then some r.hypocenter.depth
  else if p = "width" then some r.surface.get_width
  else none

/-- The `for param in self.REQUIRES_RUPTURE_PARAMETERS` loop of
`add_rup_params`, injecting each computed value as an attribute
(`setattr` modelled as an append to `attrs`). -/
def addRupParamsLoop : List String → RuptureContext →
    Except PyError RuptureContext
  | [], r => .ok r
  | p :: ps, r =>
      match rupParamValue r p with
      | some v => addRupParamsLoop ps { r with attrs := r.attrs ++ [(p, v)] }
      | none => .error (.valueError
          ("ContextMaker requires unknown rupture parameter '" ++ p ++ "'"))

/-- `ContextMaker.add_rup_params(rupture)`. -/
def ContextMaker.add_rup_params (cm : ContextMaker) (rupture : RuptureContext) :
    Except PyError RuptureContext :=
  addRupParamsLoop cm.REQUIRES_RUPTURE_PARAMETERS rupture

/-- The `for param in self.REQUIRES_DISTANCES - set([self.filter_distance])`
loop of `make_contexts`, attaching one distance array per parameter. -/
def attachDistancesLoop (rup : RuptureContext) (sites : SiteCollection) :
    List String → DistancesContext → Except PyError DistancesContext
  | [], dctx => .ok dctx
  | p :: ps, dctx =>
      match get_distances rup sites p with
      | .ok d => attachDistancesLoop rup sites ps
          { pairs := dctx.pairs ++ [(p, d.data)] }
      | .error e => .error e

/-- `ContextMaker.make_contexts(sites, rupture, radius_dist)`: filter,
attach the remaining required distances, inject the required rupture
parameters.  The `reqv` equivalent-distance branch (source lines 282-290)
requires the external reqv collaborator and a floating-point sqrt; the
embedding covers the default `self.reqv = None` configuration, in which
that branch is skipped.  The rupture updated by `add_rup_params` is
returned (the source mutates it in place). -/
def ContextMaker.make_contexts (cm : ContextMaker) (sites : SiteCollection)
    (rupture : RuptureContext) (radius_dist : Option ℚ) :
    Except PyError (SiteCollection × DistancesContext × RuptureContext) :=
  match cm.filter sites rupture radius_dist with
  | .error e => .error e
  | .ok pr =>
      match attachDistancesLoop rupture pr.1
          (cm.REQUIRES_DISTANCES.filter (fun p => decide (p ≠ cm.filter_distance))) pr.2 with
      | .error e => .error e
      | .ok dctx2 =>
          match cm.add_rup_params rupture with
          | .error e => .error e
          | .ok rup2 => .ok (pr.1, dctx2, rup2)

/-- A hazardlib source as `get_pmap` consumes it: identity, group ids,
mutex weight, and the rupture batches yielded by `_gen_rups_sites`
(source lines 357-394).  The batches are supplied as data: the
point-source splitting logic of the generator is outside the claims
under verification, and each batch is a triple
`(ruptures, sites, magdist-or-None)` exactly as yielded. -/
structure Source where
  id : Option Int := none
  source_id : String := ""
  src_group_ids : List Nat := []
  mutex_weight : ℚ := 1
  batches : List (List RuptureContext × SiteCollection × Option ℚ) := []

/-- The accumulator of the context loop `for rup in rups` of `get_pmap`
(lines 313-319): surviving sids, surviving `(rup, r_sites, dctx)`
triples, and the Python loop-leak state — `rup` is the last **iterated**
rupture, `(r_sites, dctx)` the last **successful** contexts. -/
structure CtxAcc where
  sids : List Int := []
  data : List (RuptureContext × SiteCollection × DistancesContext) := []
  lastRup : Option RuptureContext := none
  lastCtx : Option (SiteCollection × DistancesContext) := none

/-- The context loop of `get_pmap`: `make_contexts` per rupture,
`except FarAwayRupture: continue`, any other error propagates. -/
def ctxLoop (cm : ContextMaker) (sites : SiteCollection) (magdist : Option ℚ) :
    List RuptureContext → CtxAcc → Except PyError CtxAcc
  | [], acc => .ok acc
  | rup :: rest, acc =>
      match cm.make_contexts sites rup magdist with
      | .ok tr =>
          ctxLoop cm sites magdist rest
            { sids := acc.sids ++ tr.1.sids
              data := acc.data ++ [(tr.2.2, tr.1, tr.2.1)]
              lastRup := some tr.2.2
              lastCtx := some (tr.1, tr.2.1) }
      | .error (.farAwayRupture _) =>
          ctxLoop cm sites magdist rest { acc with lastRup := some rup }
      | .error (.valueError m) => .error (.valueError m)
      | .error (.invalidDistanceMetric m) => .error (.invalidDistanceMetric m)

/-- `_make_pnes(data, mean_std)`: the per-site pne rows paired with their
sids.  The poes tensor of each rupture is its external GSIM evaluation
(`rup.poesFor`), masked by the zero-weight loop and passed through
`get_probability_no_exceedance` elementwise; each site row is flattened
to the (L·G) probability-map layout.  (The source's free variable
`rupture` is threaded through explicitly, per the specification's open
question.) -/
def ContextMaker.make_pnes (cm : ContextMaker)
    (data : List (RuptureContext × SiteCollection × DistancesContext)) :
    List (Int × List ℚ) :=
  data.foldl (fun acc trip =>
    acc ++ (trip.2.1.sids.zip
      ((trip.1.poesFor trip.2.1).map
        (fun siteRow => (makePnesSite cm.gsims cm.llIdx trip.1 siteRow).flatten))))
    []

/-- The running state of the batch loop of `get_pmap` (lines 307-337):
probability-map entries, counters, RupData columns, the mean-distance
inputs, and the Python loop-leak state carried across batches. -/
structure PmapState where
  poemapArr : List (Int × List ℚ) := []
  rupdata : RupDataT := {}
  nrups : Nat := 0
  nsites : Nat := 0
  dists : List ℚ := []
  lastRup : Option RuptureContext := none
  lastCtx : Option (SiteCollection × DistancesContext) := none

/-- The two pmap update regimes of the pne loop (lines 326-333), with
the scalar `wlast` — the weight of the **leaked** last iterated rupture
`rup` — applied to every pair in the mutex branch. -/
def pneUpdate (cm : ContextMaker) (rup_indep : Bool) (wlast : ℚ)
    (pm : List (Int × List ℚ)) (pairs : List (Int × List ℚ)) :
    List (Int × List ℚ) :=
  let LG := cm.llIdx.length * cm.gsims.length
  if rup_indep then pneLoopIndep LG pm pairs
  else pneLoopMutex LG wlast pm pairs

/-- The RupData snapshot appended at the end of one batch of `get_pmap`
(lines 336-337): a **single** `rupdata.add(rup, src.id, r_sites, dctx)`
call on the loop-leaked variables — `rup` the last iterated rupture,
`(r_sites, dctx)` the last successful contexts. -/
def batchRupData (cm : ContextMaker) (fewsites : Bool) (srcId : Option Int)
    (t : RupDataT) (lastRup : Option RuptureContext)
    (lastCtx : Option (SiteCollection × DistancesContext)) :
    Except PyError RupDataT :=
  if fewsites then
    match lastRup with
    | none => .error (.valueError "NameError: leaked rupture variables unbound")
    | some rupL =>
        match lastCtx with
        | none => .error (.valueError "NameError: leaked rupture variables unbound")
        | some ctxL => RupData.add cm t rupL srcId ctxL.1 (some ctxL.2)
  else .ok t

/-- The tail of one batch iteration after a successful context loop:
skip when no sid survived, else fold the pne pairs into the map
(independent product, or mutex weighted sum with the leaked last
iterated rupture's weight), bump the counters, and append the
(single, per-batch) RupData snapshot under `fewsites`. -/
def processBatchAfter (cm : ContextMaker) (rup_indep : Bool) (fewsites : Bool)
    (srcId : Option Int) (st : PmapState) (rupsLen : Nat) (acc : CtxAcc) :
    Except PyError PmapState :=
  let st := { st with lastRup := acc.lastRup, lastCtx := acc.lastCtx }
  if acc.sids.isEmpty then .ok st
  else
    let pairs := cm.make_pnes acc.data
    let poemapArr := pneUpdate cm rup_indep
      ((acc.lastRup.bind (fun r => r.weight)).getD 0) st.poemapArr pairs
    let st := { st with poemapArr := poemapArr,
                        nrups := st.nrups + rupsLen,
                        nsites := st.nsites + acc.sids.length }
    match batchRupData cm fewsites srcId st.rupdata acc.lastRup acc.lastCtx with
    | .ok rd => .ok { st with rupdata := rd }
    | .error e => .error e

/-- `if magdist is not None: dists.append(magdist)` (lines 308-309). -/
def appendOptDist (ds : List ℚ) : Option ℚ → List ℚ
  | some m => ds ++ [m]
  | none => ds

/-- One batch of the outer loop of `get_pmap`: record the magnitude
distance, run the context loop, then `processBatchAfter`. -/
def processBatch (cm : ContextMaker) (rup_indep : Bool) (fewsites : Bool)
    (srcId : Option Int) (st : PmapState)
    (batch : List RuptureContext × SiteCollection × Option ℚ) :
    Except PyError PmapState :=
  let rups := batch.1
  let sites := batch.2.1
  let magdist := batch.2.2
  let st := { st with dists := appendOptDist st.dists magdist }
  match ctxLoop cm sites magdist rups
      { sids := [], data := [], lastRup := st.lastRup, lastCtx := st.lastCtx } with
  | .error e => .error e
  | .ok acc => processBatchAfter cm rup_indep fewsites srcId st rups.length acc

/-- The batch loop of `get_pmap`. -/
def batchLoop (cm : ContextMaker) (rup_indep : Bool) (fewsites : Bool)
    (srcId : Option Int) :
    PmapState → List (List RuptureContext × SiteCollection × Option ℚ) →
    Except PyError PmapState
  | st, [] => .ok st
  | st, b :: rest =>
      match processBatch cm rup_indep fewsites srcId st b with
      | .ok st2 => batchLoop cm rup_indep fewsites srcId st2 rest
      | .error e => .error e

/-- The probability map returned by `get_pmap`, with the attached
`nrups`, `nsites`, `maxdist` and RupData columns. -/
structure Poemap where
  pmap : List (Int × List ℚ) := []
  nrups : Nat := 0
  nsites : Nat := 0
  maxdist : Option ℚ := none
  data : RupDataT := {}
deriving DecidableEq, Repr

/-- `ContextMaker.get_pmap(src, s_sites, rup_indep)`. -/
def ContextMaker.get_pmap (cm : ContextMaker) (src : Source)
    (s_sites : SiteCollection) (rup_indep : Bool) : Except PyError Poemap :=
  let fewsites := s_sites.complete_len ≤ cm.max_sites_disagg
  match batchLoop cm rup_indep fewsites src.id {} src.batches with
  | .error e => .error e
  | .ok st => .ok { pmap := st.poemapArr
                    nrups := st.nrups
                    nsites := st.nsites
                    maxdist := if st.dists.isEmpty then none
                               else some (st.dists.sum / st.dists.length)
                    data := st.rupdata }

/-- Complement `~pm`: per sid, `a ← 1 − a`.  Modelled from the spec:
`ProbabilityMap` combination operators (module
`openquake.hazardlib.probability_map`, not under src). -/
def pmComplement (pm : List (Int × List ℚ)) : List (Int × List ℚ) :=
  pm.map (fun p => (p.1, p.2.map (fun x => 1 - x)))

/-- Scale `pm *= w`.  Modelled from the spec (see `pmComplement`). -/
def pmScale (pm : List (Int × List ℚ)) (w : ℚ) : List (Int × List ℚ) :=
  pm.map (fun p => (p.1, p.2.map (fun x => x * w)))

/-- Replace or insert the entry of one sid. -/
def assocSet {β : Type} (l : List (Int × β)) (k : Int) (v : β) :
    List (Int × β) :=
  match l with
  | [] => [(k, v)]
  | (a, b) :: t => if a = k then (a, v) :: t else (a, b) :: assocSet t k v

/-- Independent union `pmap |= other`: per sid,
`a ← 1 − (1−a)(1−b)`, entries missing on the left copied over.
Modelled from the spec (see `pmComplement`). -/
def pmUnion (a b : List (Int × List ℚ)) : List (Int × List ℚ) :=
  b.foldl (fun acc p =>
    match alookup p.1 acc with
    | some arr => assocSet acc p.1
        ((arr.zip p.2).map (fun q => 1 - (1 - q.1) * (1 - q.2)))
    | none => acc ++ [p]) a

/-- Mutex sum `pmap += other`: per sid, `a ← a + b`, entries missing on
the left copied over.  Modelled from the spec (see `pmComplement`). -/
def pmAdd (a b : List (Int × List ℚ)) : List (Int × List ℚ) :=
  b.foldl (fun acc p =>
    match alookup p.1 acc with
    | some arr => assocSet acc p.1 ((arr.zip p.2).map (fun q => q.1 + q.2))
    | none => acc ++ [p]) a

/-- Per-group association update over `Nat` group ids. -/
def gAssocUpdate (l : List (Nat × List (Int × List ℚ))) (k : Nat)
    (f : List (Int × List ℚ) → List (Int × List ℚ)) :
    List (Nat × List (Int × List ℚ)) :=
  match l with
  | [] => [(k, f [])]
  | (a, b) :: t => if a = k then (a, f b) :: t else (a, b) :: gAssocUpdate t k f

/-- `_update(pmap, pm, src, src_mutex, rup_mutex)` (lines 38-49):
complement unless the ruptures were mutex, drop an empty map, scale by
the mutex weight when sources are mutex, then merge into each of the
source's group entries (`+=` for mutex sources, `|=` otherwise; the
accumulator's missing entries start from the empty map). -/
def _update (pmap : List (Nat × List (Int × List ℚ)))
    (pm : List (Int × List ℚ)) (src : Source)
    (src_mutex rup_mutex : Bool) : List (Nat × List (Int × List ℚ)) :=
  let pm := if rup_mutex then pm else pmComplement pm
  if pm.isEmpty then pmap
  else
    let pm := if src_mutex then pmScale pm src.mutex_weight else pm
    src.src_group_ids.foldl
      (fun acc gid => gAssocUpdate acc gid
        (fun cur => if src_mutex then pmAdd cur pm else pmUnion cur pm))
      pmap

/-- `'%s (source id=%s)' % (str(err), src.source_id)` re-raised as
`etype(msg)`: same class, decorated message. -/
def decorateError (e : PyError) (source_id : String) : PyError :=
  mkPyError e.kind (e.msg ++ " (source id=" ++ source_id ++ ")")

/-- The accumulated state of the `get_pmap_by_grp` loop: the per-group
probability maps, the raw group-id list `gids`, the concatenated RupData
columns, the per-source `(nrups, nsites)` tallies keyed by `src.id`
(wall time is outside the embedding), and the mean-distance inputs. -/
structure ByGrpState where
  pmap : List (Nat × List (Int × List ℚ)) := []
  gids : List Int := []
  rup_data : RupDataT := {}
  calc_times : List (Option Int × (Nat × Nat)) := []
  dists : List ℚ := []

/-- Append the columns of one poemap's RupData to the accumulator
(`rup_data[k].extend(v)`), executed once per group id of the source. -/
def extendRupData (acc : RupDataT) (d : RupDataT) : RupDataT :=
  { srcidx := acc.srcidx ++ d.srcidx
    occurrence_rate := acc.occurrence_rate ++ d.occurrence_rate
    weight := acc.weight ++ d.weight
    probs_occur := acc.probs_occur ++ d.probs_occur
    rupParamCols := d.rupParamCols.foldl
      (fun cols kv => kv.2.foldl (fun cols v => assocAppendCol cols kv.1 v) cols)
      acc.rupParamCols
    sid_ := acc.sid_ ++ d.sid_
    distCols := d.distCols.foldl
      (fun cols kv => kv.2.foldl (fun cols v => assocAppendCol cols kv.1 v) cols)
      acc.distCols
    lon_ := acc.lon_ ++ d.lon_
    lat_ := acc.lat_ ++ d.lat_ }

/-- Record one source's accumulated tally
(`calc_times[src.id] += [nrups, nsites, dt]`). -/
def bumpCalcTimes (ct : List (Option Int × (Nat × Nat))) (key : Option Int)
    (nrups nsites : Nat) : List (Option Int × (Nat × Nat)) :=
  match ct with
  | [] => [(key, (nrups, nsites))]
  | (k, v) :: t => if k = key then (k, (v.1 + nrups, v.2 + nsites)) :: t
                   else (k, v) :: bumpCalcTimes t key nrups nsites

/-- The per-source body of the `get_pmap_by_grp` loop after a successful
`get_pmap`: `_update`, record the mean distance, extend `gids` and the
rupture data once per group id, bump the tallies. -/
def byGrpStep (st : ByGrpState) (src : Source) (poemap : Poemap)
    (src_mutex rup_mutex : Bool) : ByGrpState :=
  let st := { st with pmap := _update st.pmap poemap.pmap src src_mutex rup_mutex }
  let st := match poemap.maxdist with
            | some m => { st with dists := st.dists ++ [m] }
            | none => st
  let nr := poemap.data.sid_.length
  let st :=
    if nr ≠ 0 then
      src.src_group_ids.foldl
        (fun acc gid =>
          { acc with gids := acc.gids ++ List.replicate nr (gid : Int),
                     rup_data := extendRupData acc.rup_data poemap.data })
        st
    else st
  { st with calc_times := bumpCalcTimes st.calc_times src.id poemap.nrups poemap.nsites }

/-- The source loop of `get_pmap_by_grp`: each failure of `get_pmap` is
re-raised as the same class with the message decorated by the source id. -/
def byGrpLoop (cm : ContextMaker) (src_mutex rup_mutex : Bool) :
    ByGrpState → List (Source × SiteCollection) → Except PyError ByGrpState
  | st, [] => .ok st
  | st, (src, s_sites) :: rest =>
      match cm.get_pmap src s_sites (! rup_mutex) with
      | .ok poemap =>
          byGrpLoop cm src_mutex rup_mutex
            (byGrpStep st src poemap src_mutex rup_mutex) rest
      | .error e => .error (decorateError e src.source_id)

/-- The result of `get_pmap_by_grp`: the per-group maps, the finalized
rupture data with `grp_id = numpy.uint16(gids)` (the raw `gids` kept
alongside), the tallies and the mean distance. -/
structure ByGrpResult where
  pmap : List (Nat × List (Int × List ℚ)) := []
  rdata : RupDataT := {}
  gids : List Int := []
  grp_id : List Int := []
  calc_times : List (Option Int × (Nat × Nat)) := []
  maxdist : Option ℚ := none
deriving Repr

/-- `ContextMaker.get_pmap_by_grp(src_sites, src_mutex, rup_mutex)`. -/
def ContextMaker.get_pmap_by_grp (cm : ContextMaker)
    (src_sites : List (Source × SiteCollection))
    (src_mutex rup_mutex : Bool) : Except PyError ByGrpResult :=
  match byGrpLoop cm src_mutex rup_mutex {} src_sites with
  | .error e => .error e
  | .ok st => .ok { pmap := st.pmap
                    rdata := st.rup_data
                    gids := st.gids
                    grp_id := st.gids.map toUInt16
                    calc_times := st.calc_times
                    maxdist := if st.dists.isEmpty then none
                               else some (st.dists.sum / st.dists.length) }

/-- A mutex rupture with weight 0.3, `probs_occur = [0, 1]` (so the
non-exceedance is `1 − poe`), 5 km from every site, whose GSIM
evaluation yields poes 0.2 (exceedance probability 0.2). -/
def rupMutA : RuptureContext :=
  { rup_id := 1, mag := 6, tectonic_region_type := "ASC",
    occurrence_rate := none, probs_occur := [0, 1], weight := some (3/10),
    surface := constSurface 5,
    poesFor := fun s => s.sids.map (fun _ => [[(2 : ℚ)/10]]) }

/-- The companion mutex rupture: weight 0.7, poes 0.4. -/
def rupMutB : RuptureContext :=
  { rup_id := 2, mag := 6, tectonic_region_type := "ASC",
    occurrence_rate := none, probs_occur := [0, 1], weight := some (7/10),
    surface := constSurface 5,
    poesFor := fun s => s.sids.map (fun _ => [[(4 : ℚ)/10]]) }

/-- A source with one batch holding the two mutex ruptures. -/
def srcMut : Source :=
  { id := some 1, source_id := "s1", src_group_ids := [0],
    batches := [([rupMutA, rupMutB], sitesFix, none)] }

/-- C3 (code bug): on two mutex ruptures with weights `0.3 / 0.7` and
exceedances `0.2 / 0.4`, `get_pmap` stores
`0.7·0.2 + 0.7·0.4 = 0.42`, not the claimed
`0.3·0.2 + 0.7·0.4 = 0.34`: the update's `rup.weight` reads the variable
leaked from the context loop `for rup in rups`, i.e. the **last
iterated** rupture's weight multiplies every pne row of the batch,
instead of the weight of the rupture each row belongs to. -/
theorem C3_mutex_leaked_weight :
    (cmFix.get_pmap srcMut sitesFix false).map (fun p => alookup 0 p.pmap) =
      .ok (some [(21 : ℚ)/50]) ∧
    rupMutA.weight = some (3/10) ∧ rupMutB.weight = some (7/10) ∧
    ((21 : ℚ)/50 ≠ 3/10 * (2/10) + 7/10 * (4/10)) := by
  refine ⟨?_, rfl, rfl, by norm_num⟩
  have h1 : (cmFix.get_pmap srcMut sitesFix false).map (fun p => alookup 0 p.pmap) =
      .ok (alookup 0 (pneLoopMutex 1 (7/10) []
        [(0, [pneScalar rupMutA ((2 : ℚ)/10)]), (0, [pneScalar rupMutB ((4 : ℚ)/10)])])) := rfl
  rw [h1]
  have hA : pneScalar rupMutA ((2 : ℚ)/10) = 4/5 := by
    norm_num [pneScalar, rupMutA, pkSum, List.enum]
  have hB : pneScalar rupMutB ((4 : ℚ)/10) = 3/5 := by
    norm_num [pneScalar, rupMutB, pkSum, List.enum]
  rw [hA, hB]
  simp only [pneLoopMutex, List.foldl_cons, List.foldl_nil, assocUpdate,
    arrMutexAdd, List.replicate, List.zip_cons_cons, List.zip_nil_right,
    List.map_cons, List.map_nil, if_pos, alookup]
  norm_num

/-- C9 (code bug): with `fewsites` true and one batch of two ruptures
that both pass filtering, `get_pmap` records **one** RupData row (from
the loop-leaked `rup`/`r_sites`/`dctx` variables, lines 336-337 sitting
outside the rupture loop), not one row per surviving rupture: the
counters see 2 ruptures and 2 site contributions, the store holds a
single sid row. -/
theorem C9_rupdata_one_row_per_batch :
    (cmFix.get_pmap srcMut sitesFix true).map
        (fun p => (p.data.sid_.length, p.nrups, p.nsites)) =
      .ok (1, 2, 2) ∧ (1 : Nat) ≠ 2 := by
  exact ⟨rfl, by decide⟩

theorem decorateError_kind (e : PyError) (s : String) :
    (decorateError e s).kind = e.kind := by
  cases e <;> rfl

theorem decorateError_msg (e : PyError) (s : String) :
    (decorateError e s).msg = e.msg ++ " (source id=" ++ s ++ ")" := by
  cases e <;> rfl

theorem setReadOnly_error (x : Except PyError NpArray) (e : PyError) :
    setReadOnly x = .error e ↔ x = .error e := by
  cases x <;> simp [setReadOnly]

theorem get_distances_not_faraway (r : RuptureContext) (m : SiteCollection)
    (p : String) (s : String) :
    get_distances r m p ≠ .error (.farAwayRupture s) := by
  intro h
  unfold get_distances at h
  rw [setReadOnly_error] at h
  iterate 10
    split at h
    · exact absurd h (by simp)
  exact absurd h (by simp)

theorem attachDistancesLoop_not_faraway (rup : RuptureContext)
    (sites : SiteCollection) :
    ∀ (ps : List String) (dctx : DistancesContext) (s : String),
      attachDistancesLoop rup sites ps dctx ≠ .error (.farAwayRupture s) := by
  intro ps
  induction ps with
  | nil => intro dctx s; simp [attachDistancesLoop]
  | cons p rest ih =>
      intro dctx s hc
      unfold attachDistancesLoop at hc
      split at hc
      · rename_i d heq
        exact ih _ s hc
      · rename_i e heq
        rw [Except.error.injEq] at hc
        subst hc
        exact get_distances_not_faraway rup sites p s heq

theorem addRupParamsLoop_not_faraway :
    ∀ (ps : List String) (r : RuptureContext) (s : String),
      addRupParamsLoop ps r ≠ .error (.farAwayRupture s) := by
  intro ps
  induction ps with
  | nil => intro r s; simp [addRupParamsLoop]
  | cons p rest ih =>
      intro r s hc
      unfold addRupParamsLoop at hc
      split at hc
      · rename_i v heq
        exact ih _ s hc
      · rename_i heq
        simp at hc

/-- A `FarAwayRupture` escaping `make_contexts` can only come from the
filter step: the attach loop and `add_rup_params` never raise it. -/
theorem make_contexts_faraway_only_from_filter (cm : ContextMaker)
    (sites : SiteCollection) (rup : RuptureContext) (md : Option ℚ)
    (s : String)
    (hmc : cm.make_contexts sites rup md = .error (.farAwayRupture s)) :
    cm.filter sites rup md = .error (.farAwayRupture s) := by
  unfold ContextMaker.make_contexts at hmc
  split at hmc
  · rename_i e heq
    rw [Except.error.injEq] at hmc
    subst hmc
    exact heq
  · rename_i pr heq
    split at hmc
    · rename_i e2 heq2
      rw [Except.error.injEq] at hmc
      subst hmc
      exact absurd heq2 (attachDistancesLoop_not_faraway rup pr.1 _ _ s)
    · rename_i d2 heq2
      split at hmc
      · rename_i e3 heq3
        rw [Except.error.injEq] at hmc
        subst hmc
        unfold ContextMaker.add_rup_params at heq3
        exact absurd heq3 (addRupParamsLoop_not_faraway _ rup s)
      · rename_i r2 heq3
        exact absurd hmc (by simp)

theorem ctxLoop_not_faraway (cm : ContextMaker) (sites : SiteCollection)
    (md : Option ℚ) :
    ∀ (rups : List RuptureContext) (acc : CtxAcc) (s : String),
      ctxLoop cm sites md rups acc ≠ .error (.farAwayRupture s) := by
  intro rups
  induction rups with
  | nil => intro acc s; simp [ctxLoop]
  | cons rup rest ih =>
      intro acc s hc
      unfold ctxLoop at hc
      split at hc
      · exact ih _ s hc
      · exact ih _ s hc
      · rename_i m heq
        rw [Except.error.injEq] at hc
        exact absurd hc (by simp)
      · rename_i m heq
        rw [Except.error.injEq] at hc
        exact absurd hc (by simp)

theorem getDistsForAdd_not_faraway (rup : RuptureContext)
    (sctx : SiteCollection) (dctx : Option DistancesContext) (p : String)
    (s : String) :
    getDistsForAdd rup sctx dctx p ≠ .error (.farAwayRupture s) := by
  intro hc
  unfold getDistsForAdd at hc
  split at hc
  · split at hc
    · rename_i d heq
      exact absurd hc (by simp)
    · rename_i e heq
      rw [Except.error.injEq] at hc
      subst hc
      exact get_distances_not_faraway rup sctx p s heq
  · exact absurd hc (by simp)

theorem distColsLoop_not_faraway (rup : RuptureContext)
    (sctx : SiteCollection) (dctx : Option DistancesContext) :
    ∀ (ps : List String) (cols : List (String × List (List ℚ))) (s : String),
      distColsLoop rup sctx dctx ps cols ≠ .error (.farAwayRupture s) := by
  intro ps
  induction ps with
  | nil => intro cols s; simp [distColsLoop]
  | cons p rest ih =>
      intro cols s hc
      unfold distColsLoop at hc
      split at hc
      · exact ih _ s hc
      · rename_i e heq
        rw [Except.error.injEq] at hc
        subst hc
        exact getDistsForAdd_not_faraway rup sctx dctx p s heq

theorem rupdata_add_not_faraway (cm : ContextMaker) (t : RupDataT)
    (rup : RuptureContext) (srcid : Option Int) (sctx : SiteCollection)
    (dctx : Option DistancesContext) (s : String) :
    RupData.add cm t rup srcid sctx dctx ≠ .error (.farAwayRupture s) := by
  intro hc
  unfold RupData.add at hc
  split at hc
  · rename_i e heq
    rw [Except.error.injEq] at hc
    subst hc
    exact distColsLoop_not_faraway rup sctx dctx _ _ s heq
  · exact absurd hc (by simp)

theorem batchRupData_not_faraway (cm : ContextMaker) (fw : Bool)
    (srcId : Option Int) (t : RupDataT) (lastRup : Option RuptureContext)
    (lastCtx : Option (SiteCollection × DistancesContext)) (s : String) :
    batchRupData cm fw srcId t lastRup lastCtx ≠ .error (.farAwayRupture s) := by
  intro hc
  unfold batchRupData at hc
  split at hc
  · split at hc
    · exact absurd hc (by simp)
    · rename_i rupL
      split at hc
      · exact absurd hc (by simp)
      · rename_i ctxL
        exact rupdata_add_not_faraway cm t rupL srcId ctxL.1 (some ctxL.2) s hc
  · exact absurd hc (by simp)

theorem processBatchAfter_not_faraway (cm : ContextMaker) (ri fw : Bool)
    (srcId : Option Int) (st : PmapState) (rupsLen : Nat) (acc : CtxAcc)
    (s : String) :
    processBatchAfter cm ri fw srcId st rupsLen acc ≠ .error (.farAwayRupture s) := by
  intro hc
  unfold processBatchAfter at hc
  split at hc
  · exact absurd hc (by simp)
  · dsimp only at hc
    split at hc
    · exact absurd hc (by simp)
    · rename_i e heq
      rw [Except.error.injEq] at hc
      subst hc
      exact batchRupData_not_faraway cm fw srcId _ acc.lastRup acc.lastCtx s heq

theorem processBatch_not_faraway (cm : ContextMaker) (ri fw : Bool)
    (srcId : Option Int) (st : PmapState)
    (b : List RuptureContext × SiteCollection × Option ℚ) (s : String) :
    processBatch cm ri fw srcId st b ≠ .error (.farAwayRupture s) := by
  intro hc
  unfold processBatch at hc
  dsimp only at hc
  split at hc
  · rename_i e heq
    rw [Except.error.injEq] at hc
    subst hc
    exact ctxLoop_not_faraway cm _ _ _ _ s heq
  · rename_i acc heq
    exact processBatchAfter_not_faraway cm ri fw srcId _ b.1.length acc s hc

theorem batchLoop_not_faraway (cm : ContextMaker) (ri fw : Bool)
    (srcId : Option Int) :
    ∀ (bs : List (List RuptureContext × SiteCollection × Option ℚ))
      (st : PmapState) (s : String),
      batchLoop cm ri fw srcId st bs ≠ .error (.farAwayRupture s) := by
  intro bs
  induction bs with
  | nil => intro st s; simp [batchLoop]
  | cons b rest ih =>
      intro st s hc
      unfold batchLoop at hc
      split at hc
      · exact ih _ s hc
      · rename_i e heq
        rw [Except.error.injEq] at hc
        subst hc
        exact processBatch_not_faraway cm ri fw srcId st b s heq

/-- `FarAwayRupture` is recovered inside `get_pmap`'s rupture loop
(the rupture is skipped): `get_pmap` never propagates it. -/
theorem get_pmap_not_faraway (cm : ContextMaker) (src : Source)
    (ss : SiteCollection) (ri : Bool) (s : String) :
    cm.get_pmap src ss ri ≠ .error (.farAwayRupture s) := by
  intro hc
  unfold ContextMaker.get_pmap at hc
  dsimp only at hc
  split at hc
  · rename_i e heq
    rw [Except.error.injEq] at hc
    subst hc
    exact batchLoop_not_faraway cm ri _ src.id src.batches {} s heq
  · exact absurd hc (by simp)

theorem byGrpLoop_error_shape (cm : ContextMaker) (sm rm : Bool) :
    ∀ (lst : List (Source × SiteCollection)) (st : ByGrpState) (e' : PyError),
      byGrpLoop cm sm rm st lst = .error e' →
      ∃ p ∈ lst, ∃ e, cm.get_pmap p.1 p.2 (! rm) = .error e ∧
        e' = decorateError e p.1.source_id := by
  intro lst
  induction lst with
  | nil => intro st e' h; simp [byGrpLoop] at h
  | cons q rest ih =>
      intro st e' h
      unfold byGrpLoop at h
      split at h
      · rename_i poemap heq
        obtain ⟨p, hp, e, he, hdec⟩ := ih _ e' h
        exact ⟨p, List.mem_cons_of_mem _ hp, e, he, hdec⟩
      · rename_i e heq
        rw [Except.error.injEq] at h
        exact ⟨q, List.mem_cons_self _ _, e, heq, h.symm⟩

/-- C7: every failure of `get_pmap` inside `get_pmap_by_grp` is re-raised
with the original class and with the message decorated as
`'<original message> (source id=<sid>)'`; `FarAwayRupture` is caught
inside `get_pmap`'s rupture loop (the rupture is skipped) and never
surfaces — in particular a surfaced error is never of that class.  (The
preserved traceback is an interpreter artefact outside the embedding.) -/
theorem C7_error_wrapping (cm : ContextMaker)
    (src_sites : List (Source × SiteCollection)) (sm rm : Bool) (e' : PyError)
    (h : cm.get_pmap_by_grp src_sites sm rm = .error e') :
    (∃ p ∈ src_sites, ∃ e, cm.get_pmap p.1 p.2 (! rm) = .error e ∧
      e'.kind = e.kind ∧
      e'.msg = e.msg ++ " (source id=" ++ p.1.source_id ++ ")" ∧
      e.kind ≠ EKind.farAwayRupture) ∧
    (∀ (src : Source) (ss : SiteCollection) (ri : Bool) (m : String),
      cm.get_pmap src ss ri ≠ .error (.farAwayRupture m)) := by
  refine ⟨?_, fun src ss ri m => get_pmap_not_faraway cm src ss ri m⟩
  unfold ContextMaker.get_pmap_by_grp at h
  split at h
  · rename_i e heq
    rw [Except.error.injEq] at h
    subst h
    obtain ⟨p, hp, e0, he0, hdec⟩ := byGrpLoop_error_shape cm sm rm src_sites {} e heq
    subst hdec
    refine ⟨p, hp, e0, he0, decorateError_kind e0 _, decorateError_msg e0 _, ?_⟩
    intro hk
    rcases he0k : e0 with m | m | m
    · rw [he0k] at hk
      exact absurd hk (by simp [PyError.kind])
    · rw [he0k] at he0
      exact absurd he0 (get_pmap_not_faraway cm p.1 p.2 (! rm) m)
    · rw [he0k] at hk
      exact absurd hk (by simp [PyError.kind])
  · rename_i st heq
    exact absurd h (by simp)

/-- A ContextMaker configured with an unknown filter distance, driving
every `get_pmap` into a `ValueError`. -/
def cmBad : ContextMaker :=
  { maximum_distance := fun _ _ => 10, filter_distance := "bad",
    REQUIRES_DISTANCES := ["bad"], llIdx := ["PGA"], gsims := [{}] }

/-- C7 witness: with the broken metric configuration, `get_pmap_by_grp`
surfaces `ValueError("Unknown distance measure 'bad' (source id=s1)")`;
the theorem recovers the undecorated inner error and its class. -/
theorem C7_error_wrapping_witness :
    cmBad.get_pmap_by_grp [(srcMut, sitesFix)] false false =
      .error (.valueError "Unknown distance measure 'bad' (source id=s1)") ∧
    (∃ p ∈ [(srcMut, sitesFix)], ∃ e,
      cmBad.get_pmap p.1 p.2 (! false) = .error e ∧
      (PyError.valueError "Unknown distance measure 'bad' (source id=s1)").kind = e.kind ∧
      (PyError.valueError "Unknown distance measure 'bad' (source id=s1)").msg =
        e.msg ++ " (source id=" ++ p.1.source_id ++ ")" ∧
      e.kind ≠ EKind.farAwayRupture) := by
  have hh : cmBad.get_pmap_by_grp [(srcMut, sitesFix)] false false =
      .error (.valueError "Unknown distance measure 'bad' (source id=s1)") := rfl
  exact ⟨hh, (C7_error_wrapping cmBad [(srcMut, sitesFix)] false false _ hh).1⟩

/-- C10: `RupData.add` stores the sid vector through the 16-bit signed
narrowing `numpy.int16` and `get_pmap_by_grp` stores the group ids
through the 16-bit unsigned narrowing `numpy.uint16`; both conversions
are the identity exactly on [-32768, 32767] (resp. [0, 65535]) and wrap
modulo 2^16 outside — e.g. sid 40000 is stored as -25536 and group id
70000 as 4464. -/
theorem C10_int16_narrowing (cm : ContextMaker) (t : RupDataT)
    (rup : RuptureContext) (srcid : Option Int) (sctx : SiteCollection)
    (dctx : Option DistancesContext) (d' : RupDataT)
    (hadd : RupData.add cm t rup srcid sctx dctx = .ok d') :
    d'.sid_ = t.sid_ ++ [sctx.sids.map toInt16] ∧
    (∀ (st : List (Source × SiteCollection)) (sm rm : Bool) (res : ByGrpResult),
      cm.get_pmap_by_grp st sm rm = .ok res → res.grp_id = res.gids.map toUInt16) ∧
    (∀ n : Int, toInt16 n = n ↔ -32768 ≤ n ∧ n < 32768) ∧
    (∀ n : Int, toInt16 n % 65536 = n % 65536) ∧
    (∀ n : Int, toUInt16 n = n ↔ 0 ≤ n ∧ n < 65536) ∧
    (∀ n : Int, toUInt16 n % 65536 = n % 65536) ∧
    toInt16 40000 = -25536 ∧ toUInt16 70000 = 4464 := by
  refine ⟨?_, ?_, ?_, ?_, ?_, ?_, by decide, by decide⟩
  · unfold RupData.add at hadd
    split at hadd
    · exact absurd hadd (by simp)
    · rename_i dcols heq
      rw [Except.ok.injEq] at hadd
      subst hadd
      rfl
  · intro st sm rm res h
    unfold ContextMaker.get_pmap_by_grp at h
    split at h
    · exact absurd h (by simp)
    · rename_i st2 heq
      rw [Except.ok.injEq] at h
      subst h
      rfl
  · intro n
    unfold toInt16
    omega
  · intro n
    unfold toInt16
    omega
  · intro n
    unfold toUInt16
    omega
  · intro n
    unfold toUInt16
    omega

/-- A minimal ContextMaker with no requirement-driven columns. -/
def cmW : ContextMaker :=
  { REQUIRES_DISTANCES := [], REQUIRES_RUPTURE_PARAMETERS := [] }

/-- A site collection with a sid outside the int16 range. -/
def sctxW : SiteCollection :=
  { sids := [40000], lons := [0], lats := [0], complete_len := 1 }

/-- The expected RupData store after one `add` on `sctxW`. -/
def rupdataW : RupDataT :=
  { srcidx := [0], occurrence_rate := [some 1], weight := [none],
    probs_occur := [[]], rupParamCols := [], sid_ := [[-25536]],
    distCols := [], lon_ := [[0]], lat_ := [[0]] }

/-- C10 witness: adding a snapshot with sid 40000 stores the wrapped
value -25536; the narrowing examples evaluate as the theorem states. -/
theorem C10_int16_narrowing_witness :
    RupData.add cmW {} rupFix (some 0) sctxW (some { pairs := [] }) =
      .ok rupdataW ∧
    rupdataW.sid_ = [[(-25536 : Int)]] ∧
    toInt16 40000 = -25536 ∧ toUInt16 70000 = 4464 := by
  have hadd : RupData.add cmW {} rupFix (some 0) sctxW (some { pairs := [] }) =
      .ok rupdataW := by rfl
  have h := C10_int16_narrowing cmW {} rupFix (some 0) sctxW
    (some { pairs := [] }) rupdataW hadd
  exact ⟨hadd, by rw [h.1]; decide, h.2.2.2.2.2.2.1, h.2.2.2.2.2.2.2⟩
